import Mathlib

/-!
Shallow embedding of the card-generation core in `src/lib/cardGenerator.js`.

Conventions used throughout:
* JavaScript strings are embedded as `List Char`.
* The ambient random source (`Math.random`) is embedded as an explicit
  stream `Rng`: a function `seq : Nat → Nat` together with a cursor `idx`.
  Each call `Math.floor(Math.random() * k)` is embedded as drawing
  `seq idx % k` (a value in `[0, k)` for `k > 0`) and advancing the cursor,
  so universally quantifying over `seq` covers every possible sequence of
  draws the JavaScript code could observe.
* JavaScript numbers that can be `NaN` (results of `parseInt`) are embedded
  as `Option Int` / `Option Nat`, with `none` playing the role of `NaN`;
  every comparison against `NaN` is `false`, exactly as in JavaScript.
* The ambient clock (`new Date()`) is embedded as explicit
  `currentYear`/`currentMonth` parameters.
-/

/-- Explicit random source: a stream of naturals and a cursor into it. -/
structure Rng where
  seq : Nat → Nat
  idx : Nat

/-- Embedding of `Math.floor(Math.random() * k)` followed by advancing the
stream: returns a value in `[0, k)` for `k > 0`, and `0` for `k = 0`
(in JavaScript `Math.floor(Math.random() * 0) = 0`). -/
def Rng.next (r : Rng) (k : Nat) : Nat × Rng :=
  (if k = 0 then 0 else r.seq r.idx % k, ⟨r.seq, r.idx + 1⟩)

/-- Value of an ASCII digit character (`digitVal '7' = 7`). -/
def digitVal (c : Char) : Nat := c.toNat - 48

/-- ASCII digit character for a value below ten (`digitChar 7 = '7'`).
Embeds JavaScript number-to-string conversion of a single digit. -/
def digitChar (n : Nat) : Char := Char.ofNat (48 + n)

/-- Embedding of `parseInt(s[i])` on a single character: its value if it is
a decimal digit, `NaN` (here `none`) otherwise. -/
def jsDigit (c : Char) : Option Nat :=
  if c.isDigit then some (digitVal c) else none

/-- One step of the Luhn loop body: double the digit when `even` is set and
subtract 9 from a doubled value exceeding 9 (lines 10-15 and 36-41 of
`cardGenerator.js`). -/
def luhnStep (even : Bool) (d : Nat) : Nat :=
  if even then (if d * 2 > 9 then d * 2 - 9 else d * 2) else d

/-- Luhn sum of a digit list given rightmost-first, with the parity flag of
the rightmost digit given by `e`; embeds the `for (i = length-1; i >= 0; i--)`
loops of `luhnCheck` and `generateValidCardNumber`. -/
def luhnSumRev (e : Bool) : List Nat → Nat
  | [] => 0
  | d :: rest => luhnStep e d + luhnSumRev (!e) rest

/-- Luhn sum over raw characters, each read with `parseInt`; `none` (`NaN`)
poisons the whole sum, as `NaN` does in JavaScript (`generateValidCardNumber`
does not strip non-digits before summing). The list is rightmost-first. -/
def luhnSumRevOpt (e : Bool) : List Char → Option Nat
  | [] => some 0
  | c :: rest =>
    match jsDigit c, luhnSumRevOpt (!e) rest with
    | some d, some s => some (luhnStep e d + s)
    | _, _ => none

/-- Embedding of `luhnCheck` (lines 2-22): strip non-digits, then sum from
the right with the parity flag starting `false` on the rightmost digit, and
test divisibility by 10. -/
def luhnCheck (s : List Char) : Bool :=
  luhnSumRev false ((s.filter Char.isDigit).map digitVal).reverse % 10 == 0

/-- Embedding of `"....".padEnd(n, c)`. -/
def padEnd (s : List Char) (n : Nat) (c : Char) : List Char :=
  s ++ List.replicate (n - s.length) c

/-- Embedding of `"....".padStart(n, c)`. -/
def padStart (s : List Char) (n : Nat) (c : Char) : List Char :=
  List.replicate (n - s.length) c ++ s

/-- Embedding of `generateValidCardNumber` (lines 25-49): pad/truncate the
base to exactly 15 characters, sum with the parity flag starting `true` on
the rightmost, and append the check digit `(10 - sum % 10) % 10`. When some
character is not a digit the JavaScript sum is `NaN` and the function
returns the 15 characters followed by the text `"NaN"`. -/
def generateValidCardNumber (baseNumber : List Char) : List Char :=
  let cardNumber := (padEnd baseNumber 15 '0').take 15
  match luhnSumRevOpt true cardNumber.reverse with
  | some s => cardNumber ++ [digitChar ((10 - s % 10) % 10)]
  | none => cardNumber ++ ['N', 'a', 'N']

/-- Accumulate the value of a decimal-digit prefix; auxiliary for the
`parseInt` embedding. -/
def digitsValueGo (acc : Nat) : List Char → Nat
  | [] => acc
  | c :: rest => if c.isDigit then digitsValueGo (acc * 10 + digitVal c) rest else acc

/-- Longest decimal-digit prefix of a character list, `none` when empty;
auxiliary for the `parseInt` embedding. -/
def digitsValue : List Char → Option Nat
  | [] => none
  | c :: rest =>
    if c.isDigit then
      some (digitsValueGo (digitVal c) rest)
    else none

/-- Embedding of JavaScript `parseInt(s)` (base 10, input already free of
leading whitespace): optional sign, then the longest digit prefix; `NaN`
(`none`) when no digit follows. -/
def jsParseInt : List Char → Option Int
  | '+' :: rest => (digitsValue rest).map (fun n => (n : Int))
  | '-' :: rest => (digitsValue rest).map (fun n => -(n : Int))
  | s => (digitsValue s).map (fun n => (n : Int))

/-- Comparison `o >= lo && o <= hi` where `o` may be `NaN`: false on `NaN`,
as in JavaScript. -/
def jsInRange (o : Option Int) (lo hi : Int) : Bool :=
  match o with
  | some v => lo ≤ v && v ≤ hi
  | none => false

/-- Comparison `o < b` where `o` may be `NaN`: false on `NaN`. -/
def jsLt (o : Option Int) (b : Int) : Bool :=
  match o with
  | some v => v < b
  | none => false

/-- Embedding of `detectCardType` (lines 52-92): the exact if/else chain over
prefixes of the card number. `substring(0, k)` is `take k` and a string
equality test compares the character lists. -/
def detectCardType (cardNumber : List Char) : String :=
  if cardNumber.take 1 = ['4'] then "Visa"
  else if cardNumber.take 2 ∈ [['5', '1'], ['5', '2'], ['5', '3'], ['5', '4'], ['5', '5']]
      ∨ jsInRange (jsParseInt (cardNumber.take 4)) 2221 2720 then "Mastercard"
  else if cardNumber.take 2 ∈ [['3', '4'], ['3', '7']] then "American Express"
  else if cardNumber.take 4 = ['6', '0', '1', '1'] ∨ cardNumber.take 2 = ['6', '5']
      ∨ jsInRange (jsParseInt (cardNumber.take 6)) 644000 649999 then "Discover"
  else if cardNumber.take 2 ∈ [['3', '0'], ['3', '6'], ['3', '8']] then "Diners Club"
  else if cardNumber.take 2 = ['3', '5'] then "JCB"
  else if cardNumber.take 4 = ['5', '0', '1', '9'] then "Dankort"
  else if cardNumber.take 4 ∈ [['4', '0', '2', '6'], ['4', '1', '7', '5'], ['4', '4', '0', '5'],
      ['4', '5', '0', '8'], ['4', '8', '4', '4'], ['4', '9', '1', '3'], ['4', '9', '1', '7']]
    then "Visa Electron"
  else "Unknown"

/-- Membership in the character class `[\*XxQ#_?]` used by `fillWildcards`
and by the wildcard tests in `generateCreditCard` (lines 134, 212, 223, 266).
Note the class contains `Q` in the source. -/
def isWildcardQ (c : Char) : Bool :=
  c ∈ ['*', 'X', 'x', 'Q', '#', '_', '?']

/-- Embedding of `fillWildcards` (lines 133-135): each character in the
class is replaced, left to right, by an independently drawn digit. -/
def fillWildcards : List Char → Rng → List Char × Rng
  | [], r => ([], r)
  | c :: rest, r =>
    if isWildcardQ c then
      let tail := fillWildcards rest (r.next 10).2
      (digitChar (r.next 10).1 :: tail.1, tail.2)
    else
      let tail := fillWildcards rest r
      (c :: tail.1, tail.2)

/-- Whitespace class of the JavaScript regular expression `\s` (ASCII
whitespace together with the Unicode space characters it matches). -/
def isJsWhitespace (c : Char) : Bool :=
  c.toNat ∈ [9, 10, 11, 12, 13, 32, 0xa0, 0x1680, 0x2028, 0x2029, 0x202f, 0x205f,
    0x3000, 0xfeff]
  || (0x2000 ≤ c.toNat && c.toNat ≤ 0x200a)

/-- Embedding of `cleanInput` (lines 138-140): remove every whitespace
character. -/
def cleanInput (input : List Char) : List Char :=
  input.filter (fun c => !isJsWhitespace c)

/-- Separator class `[\|\/:\-]` used by `parseInputPattern`. -/
def isSeparator (c : Char) : Bool :=
  c ∈ ['|', '/', ':', '-']

/-- Split on separator characters keeping empty segments; auxiliary for the
embedding of `String.prototype.split`. -/
def splitSeps : List Char → List Char → List (List Char)
  | [], acc => [acc.reverse]
  | c :: rest, acc =>
    if isSeparator c then acc.reverse :: splitSeps rest []
    else splitSeps rest (c :: acc)

/-- Result shape of `parseInputPattern`: `null` fields are `none`. -/
structure ParsedPattern where
  bin : List Char
  month : Option (List Char)
  year : Option (List Char)
  cvv : Option (List Char)
deriving DecidableEq, Repr

/-- Embedding of `parseInputPattern` (lines 143-156): clean, split on the
separators, drop empty segments, and assign positionally (`parts[0] || ""`
and `parts[k] || null`; the kept segments are non-empty, hence truthy). -/
def parseInputPattern (input : List Char) : ParsedPattern :=
  let parts := (splitSeps (cleanInput input) []).filter (fun p => !p.isEmpty)
  { bin := (parts.get? 0).getD []
    month := parts.get? 1
    year := parts.get? 2
    cvv := parts.get? 3 }

/-- Truthiness of a nullable JavaScript string: `null` and `""` are falsy. -/
def jsTruthy : Option (List Char) → Bool
  | some s => !s.isEmpty
  | none => false


/-- Comparison `o > b` where `o` may be `NaN`: false on `NaN`. -/
def jsGt (o : Option Int) (b : Int) : Bool :=
  match o with
  | some v => b < v
  | none => false

/-- Decimal rendering of a natural number with structural fuel; auxiliary
for the embedding of JavaScript `Number.prototype.toString`. -/
def natCharsFuel : Nat → Nat → List Char
  | 0, _ => []
  | fuel + 1, n =>
    if n < 10 then [digitChar n]
    else natCharsFuel fuel (n / 10) ++ [digitChar (n % 10)]

/-- Embedding of `n.toString()` for a non-negative JavaScript number. -/
def natChars (n : Nat) : List Char := natCharsFuel (n + 1) n

/-- Embedding of `i.toString()` for a possibly negative JavaScript number. -/
def intChars (i : Int) : List Char :=
  if i < 0 then '-' :: natChars i.natAbs else natChars i.toNat

/-- Embedding of `s.slice(-2)`: the last two characters (the whole string
when shorter). -/
def sliceLastTwo (s : List Char) : List Char := s.drop (s.length - 2)

/-- Embedding of `generateRandomExpiry` (lines 95-117): a year drawn from
`currentYear + 1 .. currentYear + 10`, a month from `1..12`, a redraw of the
month when the drawn year equals the current year (dead in practice, since
the drawn year always exceeds the current one, but embedded faithfully), the
`> 12` wrap-around, and the final `MM`/`YY` rendering. The redraw consumes a
random value only when its branch is taken, as in the source. -/
def generateRandomExpiry (currentYear currentMonth : Nat) (r : Rng) :
    (List Char × List Char) × Rng :=
  let a := r.next 10
  let futureYear := currentYear + a.1 + 1
  let b := a.2.next 12
  let month := b.1 + 1
  let fm : Nat × Rng :=
    if futureYear = currentYear ∧ month ≤ currentMonth then
      let c := b.2.next (12 - currentMonth)
      (currentMonth + c.1 + 1, c.2)
    else (month, b.2)
  let finalYear := if fm.1 > 12 then futureYear + 1 else futureYear
  let adjustedMonth := if fm.1 > 12 then fm.1 - 12 else fm.1
  ((padStart (natChars adjustedMonth) 2 '0', sliceLastTwo (natChars finalYear)), fm.2)

/-- Draw `n` random digits and render them as characters, left to right;
embeds the digit-appending loops of `generateCVV` and `generateCreditCard`. -/
def randDigits : Nat → Rng → List Char × Rng
  | 0, r => ([], r)
  | n + 1, r =>
    let tail := randDigits n (r.next 10).2
    (digitChar (r.next 10).1 :: tail.1, tail.2)

/-- Embedding of `generateCVV` (lines 120-130): four random digits for
American Express, three otherwise. -/
def generateCVV (cardType : String) (r : Rng) : List Char × Rng :=
  randDigits (if cardType = "American Express" then 4 else 3) r

/-- Card-number phase of `generateCreditCard` (lines 172-202): expand
wildcards in the bin, pick the brand target length, append random digits up
to it, truncate to it, and run `generateValidCardNumber` on the first
`targetLength - 1` characters. -/
def resolveNumber (bin : List Char) (r : Rng) : List Char × Rng :=
  let fw := fillWildcards bin r
  let targetLength : Nat :=
    if ['3', '4'].isPrefixOf fw.1 ∨ ['3', '7'].isPrefixOf fw.1 then 15
    else if ['3', '0'].isPrefixOf fw.1 ∨ ['3', '6'].isPrefixOf fw.1
        ∨ ['3', '8'].isPrefixOf fw.1 then 14
    else 16
  let cn : List Char × Rng :=
    if fw.1.length < targetLength then
      let ex := randDigits (targetLength - fw.1.length) fw.2
      (fw.1 ++ ex.1, ex.2)
    else fw
  (generateValidCardNumber ((cn.1.take targetLength).take (targetLength - 1)), cn.2)

/-- Wildcard branch for the month field (lines 211-219): expand, parse, fall
back to a random month in `1..12` when `NaN` or out of range, and render
zero-padded to two digits. -/
def resolveMonthW (m : List Char) (r : Rng) : List Char × Rng :=
  let pm := fillWildcards m r
  let monthNum := jsParseInt pm.1
  let mn : Nat × Rng :=
    if monthNum = none ∨ jsLt monthNum 1 ∨ jsGt monthNum 12 then
      ((pm.2.next 12).1 + 1, (pm.2.next 12).2)
    else ((monthNum.getD 0).toNat, pm.2)
  (padStart (natChars mn.1) 2 '0', mn.2)

/-- Wildcard branch for the year field (lines 221-252): expand, then handle
the two-digit (century pivot at 49, past years replaced by
`currentYear + [0,10)`), four-digit (accepted only in
`[currentYear, currentYear + 20]`), and other-length cases. A two-digit
value that is `NaN` renders as the text `"NaN"`, exactly as
`(currentCentury - 100 + NaN).toString()` does in JavaScript. -/
def resolveYearW (currentYear : Nat) (y : List Char) (r : Rng) : List Char × Rng :=
  let py := fillWildcards y r
  if py.1.length = 2 then
    let currentCentury := (currentYear / 100) * 100
    let yearNum := jsParseInt py.1
    let py1 : List Char :=
      if jsInRange yearNum 0 49 then
        natChars (currentCentury + (yearNum.getD 0).toNat)
      else
        match yearNum with
        | some v => intChars ((currentCentury : Int) - 100 + v)
        | none => ['N', 'a', 'N']
    if jsLt (jsParseInt py1) (currentYear : Int) then
      (natChars (currentYear + (py.2.next 10).1), (py.2.next 10).2)
    else (py1, py.2)
  else if py.1.length = 4 then
    let yearNum := jsParseInt py.1
    if yearNum = none ∨ jsLt yearNum (currentYear : Int)
        ∨ jsGt yearNum ((currentYear : Int) + 20) then
      (natChars (currentYear + (py.2.next 10).1), (py.2.next 10).2)
    else (py.1, py.2)
  else
    (natChars (currentYear + (py.2.next 10).1), (py.2.next 10).2)

/-- Month/year phase of `generateCreditCard` (lines 207-260): when both
parsed fields are truthy, expand wildcards in each (in source order: month
first, then year) and apply the final `padStart`/`slice(-2)` rendering;
otherwise generate both via `generateRandomExpiry`, ignoring any
partially-specified field. -/
def resolveExpiry (currentYear currentMonth : Nat)
    (pmonth pyear : Option (List Char)) (r : Rng) :
    (List Char × List Char) × Rng :=
  if jsTruthy pmonth ∧ jsTruthy pyear then
    let m := pmonth.getD []
    let y := pyear.getD []
    let pm : List Char × Rng :=
      if m.any isWildcardQ then resolveMonthW m r else (m, r)
    let py : List Char × Rng :=
      if y.any isWildcardQ then resolveYearW currentYear y pm.2 else (y, pm.2)
    ((padStart pm.1 2 '0',
      if py.1.length = 4 then sliceLastTwo py.1 else padStart py.1 2 '0'), py.2)
  else generateRandomExpiry currentYear currentMonth r

/-- Wildcard branch for the CVV field (lines 266-276): expand, then fall
back to `generateCVV` when the length does not match the brand or the value
is non-numeric. -/
def resolveCvvW (cardType : String) (c : List Char) (r : Rng) : List Char × Rng :=
  let pc := fillWildcards c r
  let expectedLength : Nat := if cardType = "American Express" then 4 else 3
  if pc.1.length ≠ expectedLength ∨ jsParseInt pc.1 = none then generateCVV cardType pc.2
  else pc

/-- CVV phase of `generateCreditCard` (lines 262-282): a truthy parsed CVV
with wildcards goes through `resolveCvvW`; a truthy CVV without wildcards is
used verbatim; an absent CVV is generated fresh. -/
def resolveCvv (cardType : String) (pcvv : Option (List Char)) (r : Rng) :
    List Char × Rng :=
  if jsTruthy pcvv then
    if (pcvv.getD []).any isWildcardQ then resolveCvvW cardType (pcvv.getD []) r
    else (pcvv.getD [], r)
  else generateCVV cardType r

/-- Generated record shape returned by `generateCreditCard`. -/
structure CardRecord where
  cardNumber : List Char
  month : List Char
  year : List Char
  cvv : List Char
  cardType : String
  formatted : List Char
deriving DecidableEq, Repr

/-- Embedding of `generateCreditCard` (lines 172-292), phased into the three
resolution helpers above in source order (bin/number, expiry, CVV), with the
random stream threaded in the evaluation order of the JavaScript. -/
def generateCreditCard (currentYear currentMonth : Nat) (pattern : List Char)
    (r : Rng) : CardRecord × Rng :=
  let parsed := parseInputPattern pattern
  let num := resolveNumber parsed.bin r
  let cardType := detectCardType num.1
  let exp := resolveExpiry currentYear currentMonth parsed.month parsed.year num.2
  let cvv := resolveCvv cardType parsed.cvv exp.2
  ({ cardNumber := num.1, month := exp.1.1, year := exp.1.2, cvv := cvv.1,
     cardType := cardType,
     formatted := num.1 ++ '|' :: (exp.1.1 ++ '|' :: (exp.1.2 ++ '|' :: cvv.1)) },
   cvv.2)

/-- Loop of `generateMultipleCards` (lines 295-305): the body
`try { cards.push(generateCreditCard(pattern)) } catch { log }` is embedded
as one fallible call per index; an `error` result is the caught-and-logged
exception, which skips the record and continues with the next index. -/
def generateMultipleCardsAux (gen : Nat → Except String CardRecord) :
    Nat → Nat → List CardRecord
  | _, 0 => []
  | i, n + 1 =>
    match gen i with
    | .ok card => card :: generateMultipleCardsAux gen (i + 1) n
    | .error _ => generateMultipleCardsAux gen (i + 1) n

/-- Embedding of `generateMultipleCards` (lines 295-305) over an abstract
per-iteration generator `gen` (the `i`-th invocation of `generateCreditCard`,
which may throw). -/
def generateMultipleCards (gen : Nat → Except String CardRecord) (count : Nat) :
    List CardRecord :=
  generateMultipleCardsAux gen 0 count

/-- Fixed spec-side wildcard set. Modelled from the spec: the WildcardSet of
section 3 lists exactly the six characters star, uppercase X, lowercase x,
question mark, hash, and underscore. -/
def specWildcard (c : Char) : Bool :=
  c ∈ ['*', 'X', 'x', '?', '#', '_']

/-!
Helper lemmas shared by the claim theorems below.
-/

/-- Bounds on the code of a decimal-digit character. -/
theorem isDigit_bounds {c : Char} (h : c.isDigit = true) : 48 ≤ c.toNat ∧ c.toNat ≤ 57 := by
  simp [Char.isDigit] at h
  obtain ⟨h1, h2⟩ := h
  exact ⟨UInt32.le_toNat_of_le (by decide) h1, UInt32.toNat_le_of_le (by decide) h2⟩

/-- The value of a digit character is below ten. -/
theorem digitVal_lt_ten {c : Char} (h : c.isDigit = true) : digitVal c < 10 := by
  have := isDigit_bounds h
  simp [digitVal]
  omega

/-- Rendering the value of a digit character gives the character back. -/
theorem digitChar_digitVal {c : Char} (h : c.isDigit = true) : digitChar (digitVal c) = c := by
  obtain ⟨h1, h2⟩ := isDigit_bounds h
  have hv : 48 + (c.toNat - 48) = c.toNat := by omega
  rw [digitChar, digitVal, hv, Char.ofNat_toNat]

/-- A rendered digit below ten is a digit character. -/
theorem isDigit_digitChar {n : Nat} (h : n < 10) : (digitChar n).isDigit = true := by
  rw [digitChar]
  interval_cases n <;> decide

/-- Reading back a rendered digit below ten gives the value. -/
theorem digitVal_digitChar {n : Nat} (h : n < 10) : digitVal (digitChar n) = n := by
  rw [digitChar, digitVal]
  interval_cases n <;> decide

/-- On all-digit input the optional Luhn sum is defined and agrees with the
plain sum of the digit values. -/
theorem luhnSumRevOpt_eq_of_digits {l : List Char} (e : Bool)
    (h : ∀ c ∈ l, c.isDigit = true) :
    luhnSumRevOpt e l = some (luhnSumRev e (l.map digitVal)) := by
  induction l generalizing e with
  | nil => rfl
  | cons c rest ih =>
    have hc : c.isDigit = true := h c (by simp)
    have hrest : ∀ x ∈ rest, x.isDigit = true := fun x hx => h x (by simp [hx])
    simp [luhnSumRevOpt, jsDigit, hc, ih _ hrest, luhnSumRev]

/-- Characters of the truncated, zero-padded base are digits when the input
characters are. -/
theorem base_digits {d : List Char} (hd : ∀ c ∈ d, c.isDigit = true) :
    ∀ c ∈ (padEnd d 15 '0').take 15, c.isDigit = true := by
  intro c hc
  have hc' : c ∈ padEnd d 15 '0' := List.take_subset _ _ hc
  rw [padEnd] at hc'
  rcases List.mem_append.mp hc' with h | h
  · exact hd c h
  · rw [List.eq_of_mem_replicate h]; decide

/-- Luhn acceptance of an all-digit list with one extra digit appended: the
sum splits as the appended digit plus the shifted-parity sum of the rest. -/
theorem luhnCheck_append {base : List Char} {x : Char}
    (hb : ∀ c ∈ base, c.isDigit = true) (hx : x.isDigit = true) :
    luhnCheck (base ++ [x]) =
      ((digitVal x + luhnSumRev true (base.map digitVal).reverse) % 10 == 0) := by
  rw [luhnCheck]
  have hfilter : (base ++ [x]).filter Char.isDigit = base ++ [x] := by
    rw [List.filter_eq_self]
    intro c hc
    rcases List.mem_append.mp hc with h | h
    · exact hb c h
    · simp at h; subst h; exact hx
  rw [hfilter]
  simp [luhnSumRev, luhnStep]

/-- Idempotence core for claim C6: recomputing the check digit of an already
Luhn-valid 16-digit string returns the string unchanged. -/
theorem gVCN_idempotent (n : List Char) (h16 : n.length = 16)
    (hdig : n.all Char.isDigit = true) (hl : luhnCheck n = true) :
    generateValidCardNumber (n.take 15) = n := by
  have hd' : ∀ c ∈ n, c.isDigit = true := by simpa [List.all_eq_true] using hdig
  have hsplit : n.take 15 ++ n.drop 15 = n := List.take_append_drop 15 n
  have hlen15 : (n.take 15).length = 15 := by simp [List.length_take, h16]
  have hlen1 : (n.drop 15).length = 1 := by simp [List.length_drop, h16]
  obtain ⟨c, hc⟩ := List.length_eq_one.mp hlen1
  have hcd : c.isDigit = true := by
    apply hd' c
    rw [← hsplit, hc]
    simp
  have hbase : ∀ x ∈ n.take 15, x.isDigit = true := fun x hx =>
    hd' x (List.take_subset _ _ hx)
  have hpad : (padEnd (n.take 15) 15 '0').take 15 = n.take 15 := by
    rw [padEnd, hlen15]
    simp
  rw [generateValidCardNumber, hpad]
  rw [luhnSumRevOpt_eq_of_digits true (fun x hx => hbase x (List.mem_reverse.mp hx))]
  have hsum : luhnCheck n = ((digitVal c +
      luhnSumRev true ((n.take 15).map digitVal).reverse) % 10 == 0) := by
    conv_lhs => rw [← hsplit, hc]
    exact luhnCheck_append hbase hcd
  rw [hl] at hsum
  have hsum' : (digitVal c +
      luhnSumRev true ((n.take 15).map digitVal).reverse) % 10 = 0 := by
    have := hsum.symm
    simpa [beq_iff_eq] using this
  have hdv : digitVal c < 10 := digitVal_lt_ten hcd
  have hkey : (10 - luhnSumRev true ((n.take 15).map digitVal).reverse % 10) % 10 =
      digitVal c := by omega
  simp only [List.map_reverse]
  rw [hkey, digitChar_digitVal hcd]
  rw [hc] at hsplit
  exact hsplit

/-- Characters at the head of a four-character prefix also head the
one-character prefix. -/
theorem take_one_of_take_four {s : List Char} {a b c d : Char}
    (h : s.take 4 = [a, b, c, d]) : s.take 1 = [a] := by
  cases s with
  | nil => simp at h
  | cons x t =>
    simp only [List.take_succ_cons, List.cons.injEq] at h ⊢
    exact ⟨h.1, List.take_zero t⟩

/-- Loop characterisation for claim C8: the batch loop keeps exactly the
successful results of indices `i, i+1, ..., i+n-1`, in order. -/
theorem generateMultipleCardsAux_eq (gen : Nat → Except String CardRecord) :
    ∀ (n i : Nat), generateMultipleCardsAux gen i n =
      (List.range' i n).filterMap (fun j => (gen j).toOption) := by
  intro n
  induction n with
  | zero => intro i; rfl
  | succ n ih =>
    intro i
    rw [List.range'_succ]
    rw [List.filterMap_cons]
    cases hg : gen i with
    | ok card => simp [generateMultipleCardsAux, hg, Except.toOption, ih]
    | error e => simp [generateMultipleCardsAux, hg, Except.toOption, ih]

/-- Wildcard expansion preserves length. -/
theorem length_fillWildcards (s : List Char) (r : Rng) :
    (fillWildcards s r).1.length = s.length := by
  induction s generalizing r with
  | nil => rfl
  | cons c rest ih =>
    rw [fillWildcards]
    split_ifs with h <;> simp [ih]

/-- The digit-drawing loop produces exactly the requested number of
characters. -/
theorem length_randDigits (n : Nat) (r : Rng) : (randDigits n r).1.length = n := by
  induction n generalizing r with
  | zero => rfl
  | succ n ih => simp [randDigits, ih]

/-- A rendered number is never the empty string. -/
theorem natChars_ne_nil (n : Nat) : natChars n ≠ [] := by
  rw [natChars, natCharsFuel]
  split_ifs with h <;> simp

/-- Length of left padding. -/
theorem length_padStart (s : List Char) (n : Nat) (c : Char) :
    (padStart s n c).length = max n s.length := by
  simp [padStart]
  omega

/-- Left padding to a positive width is never empty. -/
theorem padStart_ne_nil {s : List Char} {n : Nat} {c : Char} (h : 1 ≤ n) :
    padStart s n c ≠ [] := by
  intro hc
  have hl := congrArg List.length hc
  rw [length_padStart] at hl
  simp at hl
  omega

/-- The last-two-characters slice of a non-empty string is non-empty. -/
theorem sliceLastTwo_ne_nil {s : List Char} (h : s ≠ []) : sliceLastTwo s ≠ [] := by
  intro hc
  have hl := congrArg List.length hc
  rw [sliceLastTwo, List.length_drop] at hl
  simp at hl
  have hz : s.length ≠ 0 := by simpa [List.length_eq_zero] using h
  omega

/-- Both components of a randomly generated expiry are non-empty. -/
theorem generateRandomExpiry_parts (cy cm : Nat) (r : Rng) :
    (generateRandomExpiry cy cm r).1.1 ≠ [] ∧ (generateRandomExpiry cy cm r).1.2 ≠ [] :=
  ⟨padStart_ne_nil (by norm_num), sliceLastTwo_ne_nil (natChars_ne_nil _)⟩

/-- A truthy nullable string is non-empty. -/
theorem jsTruthy_getD {o : Option (List Char)} (h : jsTruthy o = true) :
    o.getD [] ≠ [] := by
  cases o with
  | none => simp [jsTruthy] at h
  | some s => simpa [jsTruthy, List.isEmpty_iff] using h

/-- The final year rendering of the expiry phase is non-empty. -/
theorem yearRender_ne_nil (s : List Char) :
    (if s.length = 4 then sliceLastTwo s else padStart s 2 '0') ≠ [] := by
  split_ifs with h
  · apply sliceLastTwo_ne_nil
    intro hc
    rw [hc] at h
    simp at h
  · exact padStart_ne_nil (by norm_num)

/-- Both components of the resolved expiry are non-empty. -/
theorem resolveExpiry_parts (cy cm : Nat) (pm py : Option (List Char)) (r : Rng) :
    (resolveExpiry cy cm pm py r).1.1 ≠ [] ∧ (resolveExpiry cy cm pm py r).1.2 ≠ [] := by
  rw [resolveExpiry]
  by_cases h : jsTruthy pm = true ∧ jsTruthy py = true
  · rw [if_pos h]
    exact ⟨padStart_ne_nil (by norm_num), yearRender_ne_nil _⟩
  · rw [if_neg h]
    exact generateRandomExpiry_parts cy cm r

/-- A generated CVV is non-empty (three or four digits). -/
theorem generateCVV_ne_nil (ct : String) (r : Rng) : (generateCVV ct r).1 ≠ [] := by
  rw [generateCVV]
  intro hc
  have hl := congrArg List.length hc
  rw [length_randDigits] at hl
  split_ifs at hl <;> simp at hl

/-- The wildcard CVV branch yields a non-empty value on non-empty input. -/
theorem resolveCvvW_ne_nil (ct : String) (c : List Char) (hc : c ≠ []) (r : Rng) :
    (resolveCvvW ct c r).1 ≠ [] := by
  rw [resolveCvvW]
  by_cases h : (fillWildcards c r).1.length ≠ (if ct = "American Express" then 4 else 3)
      ∨ jsParseInt (fillWildcards c r).1 = none
  · rw [if_pos h]
    exact generateCVV_ne_nil ct _
  · rw [if_neg h]
    intro hnil
    have hl := congrArg List.length hnil
    rw [length_fillWildcards] at hl
    simp [List.length_eq_zero] at hl
    exact hc hl

/-- The resolved CVV is non-empty in every branch. -/
theorem resolveCvv_ne_nil (ct : String) (pcvv : Option (List Char)) (r : Rng) :
    (resolveCvv ct pcvv r).1 ≠ [] := by
  rw [resolveCvv]
  by_cases h1 : jsTruthy pcvv = true
  · rw [if_pos h1]
    by_cases h2 : (pcvv.getD []).any isWildcardQ = true
    · rw [if_pos h2]
      exact resolveCvvW_ne_nil ct _ (jsTruthy_getD h1) r
    · rw [if_neg h2]
      exact jsTruthy_getD h1
  · rw [if_neg h1]
    exact generateCVV_ne_nil ct r

/-- The check-digit appender never returns the empty string. -/
theorem gVCN_ne_nil (b : List Char) : generateValidCardNumber b ≠ [] := by
  rw [generateValidCardNumber]
  cases luhnSumRevOpt true ((padEnd b 15 '0').take 15).reverse <;> simp

/-- Brand classification never returns the empty string. -/
theorem detectCardType_ne_empty (s : List Char) : detectCardType s ≠ "" := by
  rw [detectCardType]
  split_ifs <;> decide

/-- The expiry phase ignores any partially-specified field: when either
side is missing it is exactly the random expiry generator. -/
theorem resolveExpiry_not_both (cy cm : Nat) (pm py : Option (List Char)) (r : Rng)
    (h : ¬(jsTruthy pm = true ∧ jsTruthy py = true)) :
    resolveExpiry cy cm pm py r = generateRandomExpiry cy cm r := by
  rw [resolveExpiry, if_neg h]

/-- The expiry phase passes wildcard-free literal fields through with only
the final padding/slicing, consuming no randomness. -/
theorem resolveExpiry_literal (cy cm : Nat) (m y : List Char) (r : Rng)
    (hmne : m ≠ []) (hyne : y ≠ [])
    (hmw : m.any isWildcardQ = false) (hyw : y.any isWildcardQ = false) :
    resolveExpiry cy cm (some m) (some y) r =
      ((padStart m 2 '0', if y.length = 4 then sliceLastTwo y else padStart y 2 '0'), r) := by
  rw [resolveExpiry, if_pos]
  · simp [hmw, hyw]
  · constructor <;> simp [jsTruthy, List.isEmpty_iff, hmne, hyne]

/-- Segments assigned by the pattern parser are non-empty (empty segments
are dropped before positional assignment). -/
theorem parse_segment_ne_nil {pattern seg : List Char}
    (h : (parseInputPattern pattern).month = some seg ∨
         (parseInputPattern pattern).year = some seg ∨
         (parseInputPattern pattern).cvv = some seg) :
    seg ≠ [] := by
  have hmem : seg ∈ (splitSeps (cleanInput pattern) []).filter (fun p => !p.isEmpty) := by
    rw [parseInputPattern] at h
    rcases h with h | h | h <;> exact List.get?_mem h
  have := (List.mem_filter.mp hmem).2
  simpa [List.isEmpty_iff] using this

/-- Whitespace removal is idempotent. -/
theorem cleanInput_idem (input : List Char) :
    cleanInput (cleanInput input) = cleanInput input := by
  rw [cleanInput, cleanInput, List.filter_filter]
  congr 1
  funext c
  cases isJsWhitespace c <;> rfl

/-!
Claim theorems. One theorem per claim of the specification review, each
stated against the embedded source functions above.
-/

/-- Claim C1 (refuted on the code, evaluated at the failing input): on the
spec's own American-Express example pattern `"340000000000000"`, the
generated card number has length 16, not the 15 required by the
brand-length rule, because `generateValidCardNumber` pads its base to 15
digits and appends a 16th check digit regardless of the target length. The
number is still Luhn-valid and still classified as American Express. -/
theorem c1_amex_pattern_yields_sixteen_digits :
    (generateCreditCard 2026 10 "340000000000000".data ⟨fun _ => 0, 0⟩).1.cardNumber.length
      = 16 ∧
    (generateCreditCard 2026 10 "340000000000000".data ⟨fun _ => 0, 0⟩).1.cardType =
      "American Express" ∧
    luhnCheck (generateCreditCard 2026 10 "340000000000000".data ⟨fun _ => 0, 0⟩).1.cardNumber
      = true := by decide

/-- Claim C2 (refuted on the code, evaluated at the failing input): the
character `Q` is outside the documented six-character wildcard set, yet
`fillWildcards` replaces it with a drawn digit (here `0`, the first value of
the stream), because the source regular expression class is `[\*XxQ#_?]`. -/
theorem c2_Q_expanded_despite_not_in_spec_set :
    (fillWildcards ['Q'] ⟨fun _ => 0, 0⟩).1 = ['0'] ∧ specWildcard 'Q' = false := by decide

/-- Claim C3: for every all-digit input, the check-digit appender produces a
string that the Luhn validator accepts. -/
theorem c3_appendCheckDigit_always_luhn_valid (d : List Char)
    (hd : d.all Char.isDigit = true) :
    luhnCheck (generateValidCardNumber d) = true := by
  have hd' : ∀ c ∈ d, c.isDigit = true := by simpa [List.all_eq_true] using hd
  have hb := base_digits hd'
  rw [generateValidCardNumber]
  rw [luhnSumRevOpt_eq_of_digits true (by
    intro c hc
    exact hb c (List.mem_reverse.mp hc))]
  set base := (padEnd d 15 '0').take 15 with hbase
  set s := luhnSumRev true (base.reverse.map digitVal) with hs
  have hcd : (10 - s % 10) % 10 < 10 := Nat.mod_lt _ (by norm_num)
  rw [luhnCheck_append hb (isDigit_digitChar hcd)]
  rw [digitVal_digitChar hcd]
  rw [← List.map_reverse]
  simp only [beq_iff_eq]
  omega

/-- Witness for claim C3 at the 15-digit base `"411111111111111"`. -/
theorem c3_witness :
    "411111111111111".data.all Char.isDigit = true ∧
    luhnCheck (generateValidCardNumber "411111111111111".data) = true :=
  ⟨by decide, c3_appendCheckDigit_always_luhn_valid _ (by decide)⟩

/-- Claim C4: whenever the parsed month or the parsed year is absent (or
empty), both output fields come from the random expiry generator applied to
the random-stream state left by the card-number phase; any
partially-specified field is ignored. -/
theorem c4_missing_expiry_uses_generator (cy cm : Nat) (pattern : List Char) (r : Rng)
    (h : jsTruthy (parseInputPattern pattern).month = false ∨
         jsTruthy (parseInputPattern pattern).year = false) :
    (generateCreditCard cy cm pattern r).1.month =
      (generateRandomExpiry cy cm (resolveNumber (parseInputPattern pattern).bin r).2).1.1 ∧
    (generateCreditCard cy cm pattern r).1.year =
      (generateRandomExpiry cy cm (resolveNumber (parseInputPattern pattern).bin r).2).1.2 := by
  have hcond : ¬(jsTruthy (parseInputPattern pattern).month = true ∧
      jsTruthy (parseInputPattern pattern).year = true) := by
    rcases h with h | h <;> simp [h]
  have key := resolveExpiry_not_both cy cm (parseInputPattern pattern).month
    (parseInputPattern pattern).year (resolveNumber (parseInputPattern pattern).bin r).2 hcond
  constructor
  · show (resolveExpiry cy cm (parseInputPattern pattern).month (parseInputPattern pattern).year
      (resolveNumber (parseInputPattern pattern).bin r).2).1.1 = _
    rw [key]
  · show (resolveExpiry cy cm (parseInputPattern pattern).month (parseInputPattern pattern).year
      (resolveNumber (parseInputPattern pattern).bin r).2).1.2 = _
    rw [key]

/-- Witness for claim C4 at the pattern `"4111|12"`, which supplies a month
but no year: the supplied month is discarded. -/
theorem c4_witness :
    (jsTruthy (parseInputPattern "4111|12".data).month = false ∨
     jsTruthy (parseInputPattern "4111|12".data).year = false) ∧
    ((generateCreditCard 2026 10 "4111|12".data ⟨fun _ => 0, 0⟩).1.month =
      (generateRandomExpiry 2026 10
        (resolveNumber (parseInputPattern "4111|12".data).bin ⟨fun _ => 0, 0⟩).2).1.1 ∧
     (generateCreditCard 2026 10 "4111|12".data ⟨fun _ => 0, 0⟩).1.year =
      (generateRandomExpiry 2026 10
        (resolveNumber (parseInputPattern "4111|12".data).bin ⟨fun _ => 0, 0⟩).2).1.2) :=
  ⟨by decide, c4_missing_expiry_uses_generator 2026 10 _ _ (by decide)⟩

/-- Claim C5: the Visa Electron branch of `detectCardType` is unreachable —
every prefix it tests begins with the digit 4, so the first-digit-4 Visa
rule always fires first, for every input string. -/
theorem c5_visa_electron_unreachable (s : List Char) :
    detectCardType s ≠ "Visa Electron" := by
  rw [detectCardType]
  split_ifs with h1 h2 h3 h4 h5 h6 h7 h8
  · decide
  · decide
  · decide
  · decide
  · decide
  · decide
  · decide
  · simp only [List.mem_cons, List.not_mem_nil, or_false] at h8
    rcases h8 with h | h | h | h | h | h | h <;>
      exact absurd (take_one_of_take_four h) h1
  · decide

/-- Claim C6: recomputing the check digit of a 16-digit Luhn-valid number
over its first 15 digits returns the number unchanged; in particular the
pattern `"4111111111111111"` generates the Visa card number equal to the
input. -/
theorem c6_check_digit_idempotent (n : List Char) (h16 : n.length = 16)
    (hdig : n.all Char.isDigit = true) (hl : luhnCheck n = true) :
    generateValidCardNumber (n.take 15) = n ∧
    (generateCreditCard 2026 10 "4111111111111111".data ⟨fun _ => 0, 0⟩).1.cardType =
      "Visa" ∧
    (generateCreditCard 2026 10 "4111111111111111".data ⟨fun _ => 0, 0⟩).1.cardNumber =
      "4111111111111111".data :=
  ⟨gVCN_idempotent n h16 hdig hl, by decide, by decide⟩

/-- Witness for claim C6 at `"4111111111111111"`. -/
theorem c6_witness :
    ("4111111111111111".data.length = 16 ∧
     "4111111111111111".data.all Char.isDigit = true ∧
     luhnCheck "4111111111111111".data = true) ∧
    (generateValidCardNumber ("4111111111111111".data.take 15) = "4111111111111111".data ∧
     (generateCreditCard 2026 10 "4111111111111111".data ⟨fun _ => 0, 0⟩).1.cardType =
       "Visa" ∧
     (generateCreditCard 2026 10 "4111111111111111".data ⟨fun _ => 0, 0⟩).1.cardNumber =
       "4111111111111111".data) :=
  ⟨⟨by decide, by decide, by decide⟩,
   c6_check_digit_idempotent "4111111111111111".data (by decide) (by decide) (by decide)⟩

/-- Claim C7: the parser strips whitespace, splits on the four separators,
drops empty segments from consecutive separators, and assigns the segments
positionally, as witnessed by the spec's example (plain, with interspersed
whitespace, and with a doubled separator); and parsing is invariant under
prior whitespace removal. -/
theorem c7_parse_positional_assignment :
    parseInputPattern "4532********|12|26|123".data =
      ⟨"4532********".data, some "12".data, some "26".data, some "123".data⟩ ∧
    parseInputPattern " 4532******** | 12 | 26 | 123 ".data =
      ⟨"4532********".data, some "12".data, some "26".data, some "123".data⟩ ∧
    parseInputPattern "4532********||12|26|123".data =
      ⟨"4532********".data, some "12".data, some "26".data, some "123".data⟩ ∧
    ∀ input : List Char, parseInputPattern input = parseInputPattern (cleanInput input) := by
  refine ⟨by decide, by decide, by decide, fun input => ?_⟩
  rw [parseInputPattern, parseInputPattern, cleanInput_idem]

/-- Claim C8: the batch loop returns exactly the successes of its `count`
per-index generator invocations, in order, and hence never more than
`count` records and never a failure of the batch as a whole. -/
theorem c8_batch_keeps_successes (gen : Nat → Except String CardRecord) (count : Nat) :
    generateMultipleCards gen count =
      (List.range count).filterMap (fun j => (gen j).toOption) ∧
    (generateMultipleCards gen count).length ≤ count := by
  have h := generateMultipleCardsAux_eq gen count 0
  rw [generateMultipleCards, h, ← List.range_eq_range']
  refine ⟨rfl, ?_⟩
  calc ((List.range count).filterMap fun j => (gen j).toOption).length
      ≤ (List.range count).length := List.length_filterMap_le _ _
    _ = count := List.length_range count

/-- Claim C9: for every input pattern (including characters outside the
accepted set), every clock value and every random stream, generation is
total and returns a record whose six fields are all populated (non-empty). -/
theorem c9_generate_total_fields_populated (cy cm : Nat) (pattern : List Char) (r : Rng) :
    (generateCreditCard cy cm pattern r).1.cardNumber ≠ [] ∧
    (generateCreditCard cy cm pattern r).1.month ≠ [] ∧
    (generateCreditCard cy cm pattern r).1.year ≠ [] ∧
    (generateCreditCard cy cm pattern r).1.cvv ≠ [] ∧
    (generateCreditCard cy cm pattern r).1.cardType ≠ "" ∧
    (generateCreditCard cy cm pattern r).1.formatted ≠ [] := by
  refine ⟨gVCN_ne_nil _, (resolveExpiry_parts cy cm _ _ _).1,
    (resolveExpiry_parts cy cm _ _ _).2, resolveCvv_ne_nil _ _ _,
    detectCardType_ne_empty _, ?_⟩
  show (resolveNumber (parseInputPattern pattern).bin r).1 ++ _ ≠ []
  simp

/-- Claim C10 counterexample: the month segment `"Q9"` contains none of the
six spec wildcard characters, yet it is not emitted unchanged — the code's
wildcard test also matches `Q`, expands it, and renders the parsed value
zero-padded, producing `"09"`. -/
theorem c10_literal_month_counterexample :
    (parseInputPattern "4111111111111111|Q9|26|123".data).month = some "Q9".data ∧
    "Q9".data.all (fun c => !specWildcard c) = true ∧
    "26".data.all (fun c => !specWildcard c) = true ∧
    (generateCreditCard 2026 10 "4111111111111111|Q9|26|123".data ⟨fun _ => 0, 0⟩).1.month =
      "09".data := by decide

/-- Claim C10 as amended: when the parsed month and year are both present
and neither contains a character of the code's wildcard-test set
`[\*XxQ#_?]` (which includes `Q`), they are used as-is with no range or
numeric validation — the month is only zero-padded to two characters and
the year is only reduced to its last two digits (when of length 4) or
zero-padded. -/
theorem c10_literal_expiry_passthrough (cy cm : Nat) (pattern : List Char) (r : Rng)
    (m y : List Char)
    (hm : (parseInputPattern pattern).month = some m)
    (hy : (parseInputPattern pattern).year = some y)
    (hmw : m.any isWildcardQ = false) (hyw : y.any isWildcardQ = false) :
    (generateCreditCard cy cm pattern r).1.month = padStart m 2 '0' ∧
    (generateCreditCard cy cm pattern r).1.year =
      (if y.length = 4 then sliceLastTwo y else padStart y 2 '0') := by
  have hmne : m ≠ [] := parse_segment_ne_nil (Or.inl hm)
  have hyne : y ≠ [] := parse_segment_ne_nil (Or.inr (Or.inl hy))
  have key := resolveExpiry_literal cy cm m y
    (resolveNumber (parseInputPattern pattern).bin r).2 hmne hyne hmw hyw
  constructor
  · show (resolveExpiry cy cm (parseInputPattern pattern).month (parseInputPattern pattern).year
      (resolveNumber (parseInputPattern pattern).bin r).2).1.1 = _
    rw [hm, hy, key]
  · show (resolveExpiry cy cm (parseInputPattern pattern).month (parseInputPattern pattern).year
      (resolveNumber (parseInputPattern pattern).bin r).2).1.2 = _
    rw [hm, hy, key]

/-- Witness for amended claim C10 at the pattern
`"4111111111111111|99|26|123"`: the out-of-range literal month `"99"` is
emitted unchanged. -/
theorem c10_witness :
    ((parseInputPattern "4111111111111111|99|26|123".data).month = some "99".data ∧
     (parseInputPattern "4111111111111111|99|26|123".data).year = some "26".data ∧
     "99".data.any isWildcardQ = false ∧
     "26".data.any isWildcardQ = false) ∧
    ((generateCreditCard 2026 10 "4111111111111111|99|26|123".data ⟨fun _ => 0, 0⟩).1.month =
      padStart "99".data 2 '0' ∧
     (generateCreditCard 2026 10 "4111111111111111|99|26|123".data ⟨fun _ => 0, 0⟩).1.year =
      (if "26".data.length = 4 then sliceLastTwo "26".data else padStart "26".data 2 '0')) :=
  ⟨⟨by decide, by decide, by decide, by decide⟩,
   c10_literal_expiry_passthrough 2026 10 _ _ _ _ (by decide) (by decide) (by decide)
     (by decide)⟩
